import Mathlib

/-
Verification of the event-dispatch model of the Day-12 repository.

The repository's source under src/code/event.js registers a single click
handler on a button via the single-slot assignment style
(button.onclick = function (event) ...).  The specification abstracts the
recurring event pattern of the notes into a Dispatcher with operations
subscribe / unsubscribe / notify over per-(source, kind) ordered
collections of Subscriptions.  The Dispatcher itself has no implementation
in the repository, so it is modelled here from the specification's words
(sections 3 and 4.1); the single-slot onclick model is embedded from
src/code/event.js and related to the Dispatcher model by an abstraction
map.  Sources, kinds, callbacks and handlers are opaque labels: sources
and callbacks are natural-number identifiers, kinds are strings.
-/

namespace Day12

/-- Modelled from the spec: a Subscription (section 3) associates a `kind`
with a `callback` on a `source`; it carries the unique handle `id` that
`subscribe` returns and `unsubscribe` revokes.  The Dispatcher is absent
from src/, so this record follows the spec's words. -/
structure Subscription where
  id : Nat
  source : Nat
  kind : String
  callback : Nat
  deriving DecidableEq, Repr

/-- Modelled from the spec: a Notification (section 3) is an immutable
record of one occurrence: a `kind`, a reference to the `origin`, and a
`payload` of occurrence-specific data. -/
structure Notification (α : Type) where
  kind : String
  origin : Nat
  payload : α
  deriving DecidableEq, Repr

/-- Modelled from the spec: the Dispatcher's state (section 4.1) — the
ordered collection of currently-registered Subscriptions, together with
the next fresh handle to issue. -/
structure DispatcherState where
  subs : List Subscription
  nextId : Nat
  deriving DecidableEq, Repr

/-- The Dispatcher with no registrations. -/
def emptyDispatcher : DispatcherState := ⟨[], 0⟩

/-- Modelled from the spec: `subscribe(source, kind, callback)` (section
4.1) appends the callback to the ordered collection for `(source, kind)`
and returns a fresh handle enabling later revocation; no immediate
invocation (the operation produces only the new state and the handle). -/
def subscribe (s : DispatcherState) (source : Nat) (kind : String) (cb : Nat) :
    DispatcherState × Nat :=
  (⟨s.subs ++ [⟨s.nextId, source, kind, cb⟩], s.nextId + 1⟩, s.nextId)

/-- Modelled from the spec: `unsubscribe(subscription)` (section 4.1)
removes the Subscription with the given handle from its collection;
idempotent, and tolerant of a handle not currently registered. -/
def unsubscribe (s : DispatcherState) (handle : Nat) : DispatcherState :=
  ⟨s.subs.filter (fun sub => sub.id ≠ handle), s.nextId⟩

/-- The currently-registered collection for a `(source, kind)` pair, in
registration order. -/
def matching (s : DispatcherState) (source : Nat) (kind : String) :
    List Subscription :=
  s.subs.filter (fun sub => sub.source = source ∧ sub.kind = kind)

/-- One callback invocation performed by `notify`: which subscription
fired, which callback ran, and the Notification it received. -/
structure Invocation (α : Type) where
  subId : Nat
  callback : Nat
  note : Notification α
  deriving DecidableEq, Repr

/-- Modelled from the spec: `notify(source, kind, payload)` (section 4.1)
constructs a Notification and invokes, in registration order, every
currently-registered callback for `(source, kind)`; the returned list is
the complete sequence of invocations performed before `notify` returns. -/
def notify {α : Type} (s : DispatcherState) (source : Nat) (kind : String)
    (p : α) : List (Invocation α) :=
  (matching s source kind).map (fun sub => ⟨sub.id, sub.callback, ⟨kind, source, p⟩⟩)

/-- Folding a sequence of `subscribe` calls for one `(source, kind)` over
a starting state, in list order. -/
def subscribeAll (source : Nat) (kind : String) (cbs : List Nat)
    (s : DispatcherState) : DispatcherState :=
  cbs.foldl (fun st cb => (subscribe st source kind cb).1) s

/-- A mutating Dispatcher operation (`notify` reads but never mutates). -/
inductive Op where
  | sub (source : Nat) (kind : String) (cb : Nat)
  | unsub (handle : Nat)
  deriving DecidableEq, Repr

/-- Apply one mutating operation to the Dispatcher state. -/
def applyOp (s : DispatcherState) : Op → DispatcherState
  | .sub source kind cb => (subscribe s source kind cb).1
  | .unsub h => unsubscribe s h

/-- Apply a sequence of mutating operations, left to right. -/
def applyOps (ops : List Op) (s : DispatcherState) : DispatcherState :=
  ops.foldl applyOp s

/-- Well-formedness of the Dispatcher state: every registered
subscription's handle was issued before the next fresh handle. -/
def WFState (s : DispatcherState) : Prop :=
  ∀ sub ∈ s.subs, sub.id < s.nextId

/-- The state of affairs after a handle is revoked: the handle was
already issued (it lies below the next fresh handle) and no
currently-registered subscription carries it.  Together with
well-formedness this is preserved by every later operation, since fresh
handles are never reused. -/
def Revoked (s : DispatcherState) (handle : Nat) : Prop :=
  WFState s ∧ handle < s.nextId ∧ ∀ sub ∈ s.subs, sub.id ≠ handle

/-- An element of the host document model as used by src/code/event.js:
an id, a tag name, and the single onclick handler slot
(`button.onclick`).  The handler type η is opaque. -/
structure Element (η : Type) where
  id : String
  tagName : String
  onclick : Option η
  deriving DecidableEq, Repr

/-- The single-slot assignment `e.onclick = h` of src/code/event.js
line 7: a later assignment replaces any earlier handler. -/
def setOnclick {η : Type} (e : Element η) (h : η) : Element η :=
  { e with onclick := some h }

/-- Firing a click on an element in the single-slot model: the one
registered handler, if any, is invoked with a Notification of kind
"click".  Handlers are identified by Nat so the behaviour is comparable
with the Dispatcher model. -/
def fireClick {α : Type} (e : Element Nat) (p : α) : List (Invocation α) :=
  match e.onclick with
  | none => []
  | some h => [⟨0, h, ⟨"click", 0, p⟩⟩]

/-- Abstraction map from the single-slot model into the Dispatcher
model: the element's onclick slot becomes at most one subscription for
kind "click" on source 0. -/
def elemToDispatcher (e : Element Nat) : DispatcherState :=
  match e.onclick with
  | none => ⟨[], 0⟩
  | some h => ⟨[⟨0, 0, "click", h⟩], 1⟩

/-- Modelled from the spec: the host runtime's document model (section
6) is a list of elements; getElementById returns the first element with
the given id, or none when absent. -/
def getElementById {η : Type} (doc : List (Element η)) (i : String) :
    Option (Element η) :=
  doc.find? (fun e => e.id == i)

/-- Assign the onclick slot of the first element with the given id. -/
def setOnclickById {η : Type} : List (Element η) → String → η → List (Element η)
  | [], _, _ => []
  | e :: rest, i, h =>
      if e.id = i then setOnclick e h :: rest else e :: setOnclickById rest i h

/-- The registration performed by src/code/event.js lines 6-7: look up
"my_button" and assign its onclick slot, with no null check; on a
document lacking the element the dereference of null fails (none) rather
than silently doing nothing. -/
def registerClickHandler {η : Type} (doc : List (Element η)) (h : η) :
    Option (List (Element η)) :=
  match getElementById doc "my_button" with
  | none => none
  | some _ => some (setOnclickById doc "my_button" h)

section Lemmas

theorem matching_subscribe_same (s : DispatcherState) (source : Nat)
    (kind : String) (cb : Nat) :
    matching (subscribe s source kind cb).1 source kind
      = matching s source kind ++ [⟨s.nextId, source, kind, cb⟩] := by
  simp [matching, subscribe, List.filter_append]

theorem matching_subscribe_ne (s : DispatcherState) (source : Nat)
    (kind : String) (cb : Nat) (source2 : Nat) (kind2 : String)
    (h : ¬(source = source2 ∧ kind = kind2)) :
    matching (subscribe s source kind cb).1 source2 kind2
      = matching s source2 kind2 := by
  simp only [matching, subscribe, List.filter_append, List.filter_singleton]
  rw [decide_eq_false h]
  simp

theorem matching_unsubscribe (s : DispatcherState) (handle source : Nat)
    (kind : String) :
    matching (unsubscribe s handle) source kind
      = (matching s source kind).filter (fun sub => sub.id ≠ handle) := by
  simp [matching, unsubscribe, List.filter_filter]
  congr 1
  funext sub
  by_cases h1 : sub.id = handle <;> by_cases h2 : sub.source = source <;> simp [h1, h2]

theorem notify_map_callback {α : Type} (s : DispatcherState) (source : Nat)
    (kind : String) (p : α) :
    (notify s source kind p).map Invocation.callback
      = (matching s source kind).map Subscription.callback := by
  simp [notify]

theorem subscribeAll_cons (source : Nat) (kind : String) (c : Nat)
    (cs : List Nat) (s : DispatcherState) :
    subscribeAll source kind (c :: cs) s
      = subscribeAll source kind cs (subscribe s source kind c).1 := rfl

theorem matching_subscribeAll (source : Nat) (kind : String) (cbs : List Nat)
    (s : DispatcherState) :
    (matching (subscribeAll source kind cbs s) source kind).map Subscription.callback
      = (matching s source kind).map Subscription.callback ++ cbs := by
  induction cbs generalizing s with
  | nil => simp [subscribeAll]
  | cons c cs ih =>
      rw [subscribeAll_cons, ih, matching_subscribe_same]
      simp

theorem mem_notify {α : Type} (s : DispatcherState) (source : Nat)
    (kind : String) (p : α) (inv : Invocation α)
    (h : inv ∈ notify s source kind p) :
    ∃ sub ∈ s.subs, sub.id = inv.subId ∧ sub.source = source
      ∧ sub.kind = kind ∧ sub.callback = inv.callback
      ∧ inv.note = ⟨kind, source, p⟩ := by
  simp only [notify, List.mem_map] at h
  obtain ⟨sub, hmem, rfl⟩ := h
  simp only [matching, List.mem_filter] at hmem
  have hsk : sub.source = source ∧ sub.kind = kind := by simpa using hmem.2
  exact ⟨sub, hmem.1, rfl, hsk.1, hsk.2, rfl, rfl⟩

theorem revoked_unsubscribe (s : DispatcherState) (handle : Nat)
    (hwf : WFState s) (hiss : handle < s.nextId) :
    Revoked (unsubscribe s handle) handle := by
  refine ⟨?_, hiss, ?_⟩
  · intro sub hsub
    exact hwf sub (List.mem_of_mem_filter hsub)
  · intro sub hsub
    have := List.of_mem_filter hsub
    simpa using this

theorem revoked_applyOp (s : DispatcherState) (handle : Nat) (op : Op)
    (h : Revoked s handle) : Revoked (applyOp s op) handle := by
  obtain ⟨hwf, hiss, havoid⟩ := h
  cases op with
  | sub source kind cb =>
      refine ⟨?_, Nat.lt_succ_of_lt hiss, ?_⟩
      · intro sub hsub
        simp only [applyOp, subscribe, List.mem_append, List.mem_singleton] at hsub
        rcases hsub with h1 | rfl
        · exact Nat.lt_succ_of_lt (hwf sub h1)
        · exact Nat.lt_succ_self _
      · intro sub hsub
        simp only [applyOp, subscribe, List.mem_append, List.mem_singleton] at hsub
        rcases hsub with h1 | rfl
        · exact havoid sub h1
        · exact Nat.ne_of_gt hiss
  | unsub h2 =>
      refine ⟨?_, hiss, ?_⟩
      · intro sub hsub
        exact hwf sub (List.mem_of_mem_filter hsub)
      · intro sub hsub
        exact havoid sub (List.mem_of_mem_filter hsub)

theorem revoked_applyOps (ops : List Op) (s : DispatcherState) (handle : Nat)
    (h : Revoked s handle) : Revoked (applyOps ops s) handle := by
  induction ops generalizing s with
  | nil => exact h
  | cons op rest ih => exact ih (applyOp s op) (revoked_applyOp s handle op h)

theorem getElementById_isSome {η : Type} (doc : List (Element η)) (i : String)
    (h : ∃ e ∈ doc, e.id = i) : (getElementById doc i).isSome := by
  rw [getElementById, List.find?_isSome]
  obtain ⟨e, hmem, hid⟩ := h
  exact ⟨e, hmem, by simpa using hid⟩

theorem getElementById_setOnclickById {η : Type} (doc : List (Element η))
    (i : String) (h : η) (hex : ∃ e ∈ doc, e.id = i) :
    ∃ e2, getElementById (setOnclickById doc i h) i = some e2
      ∧ e2.onclick = some h := by
  induction doc with
  | nil => simp at hex
  | cons e rest ih =>
      by_cases hid : e.id = i
      · refine ⟨setOnclick e h, ?_, rfl⟩
        rw [setOnclickById, if_pos hid, getElementById,
          List.find?_cons_of_pos _ (by simpa [setOnclick] using hid)]
      · obtain ⟨e3, hmem, hid3⟩ := hex
        have hmem2 : e3 ∈ rest := by
          rcases List.mem_cons.mp hmem with rfl | h3
          · exact absurd hid3 hid
          · exact h3
        obtain ⟨e2, hfind, honc⟩ := ih ⟨e3, hmem2, hid3⟩
        refine ⟨e2, ?_, honc⟩
        rw [setOnclickById, if_neg hid, getElementById,
          List.find?_cons_of_neg _ (by simpa using hid)]
        exact hfind

theorem registerClickHandler_fails {η : Type} (doc : List (Element η)) (h : η)
    (hno : ∀ e ∈ doc, e.id ≠ "my_button") :
    registerClickHandler doc h = none := by
  have hfind : getElementById doc "my_button" = none := by
    rw [getElementById, List.find?_eq_none]
    intro e he
    simpa using hno e he
  simp [registerClickHandler, hfind]

end Lemmas

/-- C1: for every sequence of `subscribe` calls registering distinct
callbacks on the same `(source, kind)`, a single
`notify(source, kind, payload)` invokes each of those callbacks exactly
once, and the invocations occur in registration order. -/
theorem notify_invokes_each_once_in_order {α : Type} (source : Nat)
    (kind : String) (cbs : List Nat) (p : α) (hnd : cbs.Nodup) :
    (notify (subscribeAll source kind cbs emptyDispatcher) source kind p).map
        Invocation.callback = cbs
    ∧ ∀ cb ∈ cbs,
        ((notify (subscribeAll source kind cbs emptyDispatcher) source kind p).map
            Invocation.callback).count cb = 1 := by
  have hmap : (notify (subscribeAll source kind cbs emptyDispatcher) source kind p).map
      Invocation.callback = cbs := by
    rw [notify_map_callback, matching_subscribeAll]
    simp [matching, emptyDispatcher]
  refine ⟨hmap, fun cb hcb => ?_⟩
  rw [hmap]
  exact List.count_eq_one_of_mem hnd hcb

/-- Witness for C1 at a concrete input: three distinct callbacks
subscribed to (source 0, kind "activation"). -/
theorem notify_invokes_each_once_in_order_witness :
    ([1, 2, 3] : List Nat).Nodup
    ∧ ((notify (subscribeAll 0 "activation" [1, 2, 3] emptyDispatcher) 0
          "activation" (5 : Nat)).map Invocation.callback = [1, 2, 3]
      ∧ ∀ cb ∈ ([1, 2, 3] : List Nat),
          ((notify (subscribeAll 0 "activation" [1, 2, 3] emptyDispatcher) 0
              "activation" (5 : Nat)).map Invocation.callback).count cb = 1) :=
  ⟨by decide, notify_invokes_each_once_in_order 0 "activation" [1, 2, 3] 5 (by decide)⟩

/-- C2: after `unsubscribe` revokes an issued handle, no later `notify`
— across any further sequence of subscribe/unsubscribe operations —
ever performs an invocation on behalf of that subscription again (handles
are never reused, so the revoked subscription cannot reappear). -/
theorem unsubscribe_permanent {α : Type} (s : DispatcherState) (handle : Nat)
    (hwf : WFState s) (hiss : handle < s.nextId) (ops : List Op)
    (source : Nat) (kind : String) (p : α) (inv : Invocation α)
    (hinv : inv ∈ notify (applyOps ops (unsubscribe s handle)) source kind p) :
    inv.subId ≠ handle := by
  have hrev : Revoked (applyOps ops (unsubscribe s handle)) handle :=
    revoked_applyOps ops _ handle (revoked_unsubscribe s handle hwf hiss)
  obtain ⟨sub, hmem, hid, -⟩ := mem_notify _ source kind p inv hinv
  intro hc
  exact hrev.2.2 sub hmem (hid.trans hc)

/-- Witness for C2 at a concrete input: callbacks 7 and 8 subscribed,
handle 0 (callback 7) revoked, callback 7 re-subscribed afterwards; the
invocation of callback 8 does not come from the revoked handle 0. -/
theorem unsubscribe_permanent_witness :
    WFState (subscribeAll 0 "activation" [7, 8] emptyDispatcher)
    ∧ (0 : Nat) < (subscribeAll 0 "activation" [7, 8] emptyDispatcher).nextId
    ∧ (⟨1, 8, ⟨"activation", 0, (3 : Nat)⟩⟩ : Invocation Nat)
        ∈ notify (applyOps [Op.sub 0 "activation" 7]
            (unsubscribe (subscribeAll 0 "activation" [7, 8] emptyDispatcher) 0))
            0 "activation" 3
    ∧ (⟨1, 8, ⟨"activation", 0, (3 : Nat)⟩⟩ : Invocation Nat).subId ≠ 0 :=
  ⟨by unfold WFState; decide, by decide, by decide,
   unsubscribe_permanent (subscribeAll 0 "activation" [7, 8] emptyDispatcher) 0
     (by unfold WFState; decide) (by decide)
     [Op.sub 0 "activation" 7] 0 "activation" 3
     ⟨1, 8, ⟨"activation", 0, (3 : Nat)⟩⟩ (by decide)⟩

/-- C3: for every source and kind with zero currently-registered
subscriptions, `notify(source, kind, payload)` is a no-op: it performs no
invocation and returns normally (it is a total function returning the
empty invocation sequence, never an error value). -/
theorem notify_no_subscriptions_noop {α : Type} (s : DispatcherState)
    (source : Nat) (kind : String) (p : α)
    (h : ∀ sub ∈ s.subs, ¬(sub.source = source ∧ sub.kind = kind)) :
    notify s source kind p = [] := by
  have hm : matching s source kind = [] :=
    List.filter_eq_nil_iff.mpr (by intro a ha; simpa using h a ha)
  simp [notify, hm]

/-- Witness for C3 at a concrete input: one subscription exists but under
a different kind, and notify of the other kind performs no invocation. -/
theorem notify_no_subscriptions_noop_witness :
    (∀ sub ∈ (subscribeAll 0 "activation" [7] emptyDispatcher).subs,
        ¬(sub.source = 0 ∧ sub.kind = "other"))
    ∧ notify (subscribeAll 0 "activation" [7] emptyDispatcher) 0 "other"
        (3 : Nat) = [] :=
  ⟨by decide, notify_no_subscriptions_noop _ 0 "other" 3 (by decide)⟩

/-- C4: kinds are independent and kind-matched: every invocation
performed by `notify(source, kind, payload)` comes from a subscription
registered under exactly that kind on that source; in particular a
callback whose subscriptions all carry kind A is never invoked by a
notify of a different kind B on the same source. -/
theorem notify_kind_matched {α : Type} (s : DispatcherState) (source : Nat)
    (kindA kindB : String) (cb : Nat) (p : α) (inv : Invocation α)
    (hinv : inv ∈ notify s source kindB p) :
    (inv.note.kind = kindB
      ∧ ∃ sub ∈ s.subs, sub.id = inv.subId ∧ sub.source = source
          ∧ sub.kind = kindB ∧ sub.callback = inv.callback)
    ∧ ((∀ sub ∈ s.subs, sub.callback = cb → sub.kind = kindA) →
        kindA ≠ kindB → inv.callback ≠ cb) := by
  obtain ⟨sub, hmem, hid, hsrc, hk, hcb, hnote⟩ :=
    mem_notify s source kindB p inv hinv
  constructor
  · exact ⟨by rw [hnote], sub, hmem, hid, hsrc, hk, hcb⟩
  · intro honly hne hc
    exact hne ((honly sub hmem (hcb.trans hc)).symm.trans hk)

/-- Witness for C4 at a concrete input: callback 1 is subscribed under
kind "A" only, callback 2 under kind "B"; the invocation that notify of
kind "B" performs is kind-matched and is not callback 1. -/
theorem notify_kind_matched_witness :
    ((⟨1, 2, ⟨"B", 0, (42 : Nat)⟩⟩ : Invocation Nat)
        ∈ notify (subscribeAll 0 "B" [2] (subscribeAll 0 "A" [1] emptyDispatcher))
            0 "B" (42 : Nat))
    ∧ ((⟨1, 2, ⟨"B", 0, (42 : Nat)⟩⟩ : Invocation Nat).note.kind = "B"
        ∧ ∃ sub ∈ (subscribeAll 0 "B" [2]
              (subscribeAll 0 "A" [1] emptyDispatcher)).subs,
            sub.id = 1 ∧ sub.source = 0 ∧ sub.kind = "B" ∧ sub.callback = 2)
    ∧ (⟨1, 2, ⟨"B", 0, (42 : Nat)⟩⟩ : Invocation Nat).callback ≠ 1 := by
  have h := notify_kind_matched
      (subscribeAll 0 "B" [2] (subscribeAll 0 "A" [1] emptyDispatcher))
      0 "A" "B" 1 (42 : Nat) ⟨1, 2, ⟨"B", 0, 42⟩⟩ (by decide)
  exact ⟨by decide, h.1, h.2 (by decide) (by decide)⟩

/-- C5: unsubscribe is idempotent: a second call with the same handle
leaves the state exactly as the single call did, and a call with a handle
not currently registered is not an error and leaves the state unchanged. -/
theorem unsubscribe_idempotent (s : DispatcherState) (handle : Nat) :
    unsubscribe (unsubscribe s handle) handle = unsubscribe s handle
    ∧ ((∀ sub ∈ s.subs, sub.id ≠ handle) → unsubscribe s handle = s) := by
  constructor
  · simp [unsubscribe, List.filter_filter]
  · intro h
    have hf : s.subs.filter (fun sub => sub.id ≠ handle) = s.subs :=
      List.filter_eq_self.mpr (by intro a ha; simpa using h a ha)
    simp only [unsubscribe, hf]

/-- Witness for C5 at a concrete input: double revocation of handle 0 and
revocation of the unregistered handle 9. -/
theorem unsubscribe_idempotent_witness :
    unsubscribe (unsubscribe (subscribeAll 0 "activation" [4, 5] emptyDispatcher) 0) 0
        = unsubscribe (subscribeAll 0 "activation" [4, 5] emptyDispatcher) 0
    ∧ unsubscribe (subscribeAll 0 "activation" [4, 5] emptyDispatcher) 9
        = subscribeAll 0 "activation" [4, 5] emptyDispatcher :=
  ⟨(unsubscribe_idempotent _ 0).1, (unsubscribe_idempotent _ 9).2 (by decide)⟩

/-- C6: `subscribe(source, kind, callback)` only appends the new
subscription at the end of the ordered collection for `(source, kind)`
(its whole effect on the subscription list is that one append, and its
result type carries no invocation, so no callback runs at registration
time); every other `(source, kind)` collection is unchanged. -/
theorem subscribe_appends_frame (s : DispatcherState) (source : Nat)
    (kind : String) (cb : Nat) :
    (subscribe s source kind cb).1.subs
        = s.subs ++ [⟨s.nextId, source, kind, cb⟩]
    ∧ matching (subscribe s source kind cb).1 source kind
        = matching s source kind ++ [⟨s.nextId, source, kind, cb⟩]
    ∧ ∀ source2 kind2, ¬(source2 = source ∧ kind2 = kind) →
        matching (subscribe s source kind cb).1 source2 kind2
          = matching s source2 kind2 := by
  refine ⟨rfl, matching_subscribe_same s source kind cb, ?_⟩
  intro source2 kind2 h
  exact matching_subscribe_ne s source kind cb source2 kind2
    (fun hc => h ⟨hc.1.symm, hc.2.symm⟩)

/-- Witness for C6 at a concrete input: one subscribe call on
(source 0, kind "activation"), with the (source 1, kind "other")
collection untouched. -/
theorem subscribe_appends_frame_witness :
    ((subscribe emptyDispatcher 0 "activation" 7).1.subs
        = emptyDispatcher.subs ++ [⟨0, 0, "activation", 7⟩])
    ∧ matching (subscribe emptyDispatcher 0 "activation" 7).1 1 "other"
        = matching emptyDispatcher 1 "other" :=
  ⟨(subscribe_appends_frame emptyDispatcher 0 "activation" 7).1,
   (subscribe_appends_frame emptyDispatcher 0 "activation" 7).2.2 1 "other"
     (by decide)⟩

/-- C7: every callback invoked by `notify(source, kind, payload)`
receives a Notification carrying exactly the payload passed to notify
(together with the fired kind and origin). -/
theorem notify_payload_exact {α : Type} (s : DispatcherState) (source : Nat)
    (kind : String) (p : α) (inv : Invocation α)
    (h : inv ∈ notify s source kind p) :
    inv.note = ⟨kind, source, p⟩ := by
  obtain ⟨sub, -, -, -, -, -, hnote⟩ := mem_notify s source kind p inv h
  exact hnote

/-- Witness for C7: the spec's example scenario — c1 = 1 then c2 = 2
subscribed to (button = 0, "activation"); notify with payload (10, 20)
invokes c1 then c2, each once, each with that exact payload. -/
theorem notify_payload_exact_witness :
    ((⟨0, 1, ⟨"activation", 0, ((10 : Int), (20 : Int))⟩⟩ : Invocation (Int × Int))
        ∈ notify (subscribeAll 0 "activation" [1, 2] emptyDispatcher)
            0 "activation" ((10 : Int), (20 : Int)))
    ∧ (⟨0, 1, ⟨"activation", 0, ((10 : Int), (20 : Int))⟩⟩
          : Invocation (Int × Int)).note = ⟨"activation", 0, (10, 20)⟩
    ∧ notify (subscribeAll 0 "activation" [1, 2] emptyDispatcher)
          0 "activation" ((10 : Int), (20 : Int))
        = [⟨0, 1, ⟨"activation", 0, (10, 20)⟩⟩,
           ⟨1, 2, ⟨"activation", 0, (10, 20)⟩⟩] :=
  ⟨by decide,
   notify_payload_exact (subscribeAll 0 "activation" [1, 2] emptyDispatcher)
     0 "activation" ((10 : Int), (20 : Int))
     ⟨0, 1, ⟨"activation", 0, (10, 20)⟩⟩ (by decide),
   by decide⟩

/-- C9: run-to-completion: `notify` returns the complete invocation
sequence as one flat list computed within the single call — every
currently-registered matching subscription's invocation is an element of
the returned sequence, and the sequence has exactly one entry per
matching subscription, executed sequentially in that order. -/
theorem notify_run_to_completion {α : Type} (s : DispatcherState)
    (source : Nat) (kind : String) (p : α) (sub : Subscription)
    (hmem : sub ∈ s.subs) (hsrc : sub.source = source) (hk : sub.kind = kind) :
    (⟨sub.id, sub.callback, ⟨kind, source, p⟩⟩ : Invocation α)
        ∈ notify s source kind p
    ∧ (notify s source kind p).length = (matching s source kind).length := by
  constructor
  · simp only [notify, List.mem_map]
    exact ⟨sub, List.mem_filter.mpr ⟨hmem, by simp [hsrc, hk]⟩, rfl⟩
  · simp [notify]

/-- Witness for C9 at a concrete input: the single subscription of
callback 7 is invoked within the notify call that fires its kind. -/
theorem notify_run_to_completion_witness :
    ((⟨0, 0, "activation", 7⟩ : Subscription)
        ∈ (subscribeAll 0 "activation" [7] emptyDispatcher).subs)
    ∧ ((⟨0, 7, ⟨"activation", 0, (3 : Nat)⟩⟩ : Invocation Nat)
          ∈ notify (subscribeAll 0 "activation" [7] emptyDispatcher)
              0 "activation" 3
        ∧ (notify (subscribeAll 0 "activation" [7] emptyDispatcher)
              0 "activation" (3 : Nat)).length
            = (matching (subscribeAll 0 "activation" [7] emptyDispatcher)
                0 "activation").length) :=
  ⟨by decide,
   notify_run_to_completion _ 0 "activation" 3 ⟨0, 0, "activation", 7⟩
     (by decide) (by decide) (by decide)⟩

/-- C8: the single-slot assignment style of src/code/event.js supports
at most one handler per element and event kind — a later assignment
replaces the earlier one — and every behaviour expressible with it is
also expressible in the multi-subscriber Dispatcher model (its firing
behaviour equals `notify` on the abstracted state), strictly so: some
Dispatcher behaviour is expressible by no single-slot element. -/
theorem onclick_refines_dispatcher :
    (∀ (η : Type) (e : Element η) (h1 h2 : η),
        setOnclick (setOnclick e h1) h2 = setOnclick e h2)
    ∧ (∀ (α : Type) (e : Element Nat) (p : α), (fireClick e p).length ≤ 1)
    ∧ (∀ (α : Type) (e : Element Nat) (p : α),
        fireClick e p = notify (elemToDispatcher e) 0 "click" p)
    ∧ ∃ s : DispatcherState, ∀ e : Element Nat,
        notify s 0 "click" (0 : Nat) ≠ fireClick e (0 : Nat) := by
  refine ⟨fun η e h1 h2 => rfl, fun α e p => ?_, fun α e p => ?_, ?_⟩
  · obtain ⟨i, t, o⟩ := e
    cases o <;> simp [fireClick]
  · obtain ⟨i, t, o⟩ := e
    cases o <;> rfl
  · refine ⟨⟨[⟨0, 0, "click", 1⟩, ⟨1, 0, "click", 2⟩], 2⟩, fun e => ?_⟩
    intro heq
    have hlen : (2 : Nat) = (fireClick e (0 : Nat)).length := by
      rw [← heq]; rfl
    obtain ⟨i, t, o⟩ := e
    cases o <;> simp [fireClick] at hlen

/-- Witness for C8 at concrete inputs: assigning handler 2 after handler
1 leaves only handler 2, and a concrete element's firing behaviour
coincides with notify on its Dispatcher abstraction. -/
theorem onclick_refines_dispatcher_witness :
    setOnclick (setOnclick (⟨"my_button", "BUTTON", none⟩ : Element Nat) 1) 2
        = setOnclick (⟨"my_button", "BUTTON", none⟩ : Element Nat) 2
    ∧ fireClick (⟨"my_button", "BUTTON", some 3⟩ : Element Nat) (7 : Nat)
        = notify (elemToDispatcher (⟨"my_button", "BUTTON", some 3⟩ : Element Nat))
            0 "click" 7 :=
  ⟨onclick_refines_dispatcher.1 Nat ⟨"my_button", "BUTTON", none⟩ 1 2,
   onclick_refines_dispatcher.2.2.1 Nat ⟨"my_button", "BUTTON", some 3⟩ 7⟩

/-- C10: the registration of src/code/event.js dereferences the result
of getElementById("my_button") with no null check: on every document
containing an element with id "my_button" the assignment to
button.onclick succeeds (the null branch is unreachable), and on a
document without such an element the registration fails rather than
silently doing nothing. -/
theorem register_no_null_check {η : Type} (doc : List (Element η)) (h : η) :
    ((∃ e ∈ doc, e.id = "my_button") →
        ∃ doc2, registerClickHandler doc h = some doc2
          ∧ ∃ e2, getElementById doc2 "my_button" = some e2
              ∧ e2.onclick = some h)
    ∧ ((∀ e ∈ doc, e.id ≠ "my_button") → registerClickHandler doc h = none) := by
  constructor
  · intro hex
    have hsome := getElementById_isSome doc "my_button" hex
    obtain ⟨b, hb⟩ := Option.isSome_iff_exists.mp hsome
    refine ⟨setOnclickById doc "my_button" h, ?_, ?_⟩
    · simp [registerClickHandler, hb]
    · exact getElementById_setOnclickById doc "my_button" h hex
  · exact registerClickHandler_fails doc h

/-- Witness for C10 at concrete inputs: a document holding the
"my_button" element lets the registration succeed and set its handler;
the empty document makes the registration fail with none. -/
theorem register_no_null_check_witness :
    (∃ doc2, registerClickHandler
          [(⟨"my_button", "BUTTON", none⟩ : Element Nat)] 5 = some doc2
        ∧ ∃ e2, getElementById doc2 "my_button" = some e2
            ∧ e2.onclick = some 5)
    ∧ registerClickHandler ([] : List (Element Nat)) 5 = none :=
  ⟨(register_no_null_check [(⟨"my_button", "BUTTON", none⟩ : Element Nat)] 5).1
     ⟨⟨"my_button", "BUTTON", none⟩, by decide, rfl⟩,
   (register_no_null_check ([] : List (Element Nat)) 5).2 (by simp)⟩

end Day12
